import Mathlib

/-!
# Verification of the crypto-ema-tracker core

A shallow embedding, in Lean 4, of the core logic of the crypto-ema-tracker
repository (backend/indicators.js, backend/alertManager.js, backend/server.js,
backend/nlpParser.js, backend/nlpParserV2.js), together with theorems about
the embedded definitions.

Conventions of the embedding:
* JavaScript numbers are modelled as `ℚ` (prices, indicator values, thresholds).
* JavaScript strings are Lean `String`s; regular-expression tests over them are
  implemented as explicit scanners with the same matching semantics
  (left-to-right scan, greedy quantifiers with backtracking, case-insensitive
  tests performed on the lowercased text, `\b` = word boundary over `[A-Za-z0-9_]`,
  `\s` = ASCII whitespace).
* Fallible lookups (`obj[key]` possibly `undefined`) become `Option`;
  fallible routines (`Promise.reject`) become `Except`.
* Mutation of an alert object during one engine cycle becomes a function
  from the old alert record to the new one; ISO timestamps become an abstract
  `Nat` clock value passed in by the caller.
-/

namespace CryptoEmaTracker

/-! ## Character and string scanning primitives (regex semantics helpers) -/

/-- ASCII whitespace, the characters matched by `\s` that can occur in queries. -/
def isWs (c : Char) : Bool :=
  c = ' ' || c = '\t' || c = '\n' || c = '\r'

/-- A word character in the sense of the regex `\b` boundary: `[A-Za-z0-9_]`. -/
def isWordChar (c : Char) : Bool :=
  c.isAlpha || c.isDigit || c = '_'

/-- Does `pat` occur as a prefix of `cs`? -/
def isPrefixList (pat cs : List Char) : Bool :=
  match pat, cs with
  | [], _ => true
  | _ :: _, [] => false
  | p :: ps, c :: rest => p = c && isPrefixList ps rest

/-- Does `pat` occur anywhere in `cs` (regex `test` of a literal pattern)? -/
def containsList (pat cs : List Char) : Bool :=
  match cs with
  | [] => isPrefixList pat []
  | _ :: rest => isPrefixList pat cs || containsList pat rest

/-- String version of the substring test `s.includes(pat)`. -/
def containsSubstr (pat s : String) : Bool :=
  containsList pat.toList s.toList

/-- Does the character `c` occur in `s` (regex test of a single literal char)? -/
def containsChar (c : Char) (s : String) : Bool :=
  s.toList.contains c

/-- Match of `\bword\b` at the head of `cs`, given whether the previous
character was a word character. -/
def wordAtHead (prevIsWord : Bool) (w cs : List Char) : Bool :=
  if prevIsWord then false
  else
    isPrefixList w cs &&
      (match cs.drop w.length with
       | [] => true
       | c :: _ => !isWordChar c)

/-- Word-boundary test anywhere in `cs`; `prevIsWord` tracks the preceding char. -/
def containsWordAux (prevIsWord : Bool) (w cs : List Char) : Bool :=
  match cs with
  | [] => false
  | c :: rest =>
      wordAtHead prevIsWord w cs || containsWordAux (isWordChar c) w rest

/-- The regex test `/\bw\b/` on a string (`w` itself made of word characters). -/
def containsWord (w s : String) : Bool :=
  containsWordAux false w.toList s.toList

/-- Longest prefix of `cs` made of decimal digits. -/
def digitRun (cs : List Char) : List Char :=
  match cs with
  | [] => []
  | c :: rest => if c.isDigit then c :: digitRun rest else []

/-- Longest prefix of `cs` made of ASCII whitespace. -/
def wsRun (cs : List Char) : List Char :=
  match cs with
  | [] => []
  | c :: rest => if isWs c then c :: wsRun rest else []

/-- Decimal value of a digit list (the `parseInt` of a matched `\d+` group). -/
def digitsToNat (cs : List Char) : Nat :=
  cs.foldl (fun acc c => acc * 10 + (c.toNat - '0'.toNat)) 0

/-- ASCII `toLowerCase`, character by character (`String.toLower` itself is
defined by well-founded recursion on byte positions and is avoided for the
sake of evaluability). -/
def lowerStr (s : String) : String :=
  String.mk (s.toList.map Char.toLower)

/-- ASCII `toUpperCase`, character by character. -/
def upperStr (s : String) : String :=
  String.mk (s.toList.map Char.toUpper)

/-! ## backend/indicators.js -/

/-- Error raised by the indicator calculators
(`Insufficient data: need ${period} points, got ${data.length}`). -/
inductive IndicatorError where
  | insufficientData (need got : Nat) : IndicatorError
  | unknownType (type : String) : IndicatorError
  deriving Repr, DecidableEq

/-- Modelled from the spec: the underlying SMA numerical routine is a standard
library call (`tulind.indicators.sma`), declared out of scope by the spec; the
spec fixes its contract as the simple average over each `period`-wide window,
with output length `len - (period - 1)` aligned to the input tail. -/
def smaSeries (data : List ℚ) (period : Nat) : List ℚ :=
  (List.range (data.length - period + 1)).map
    (fun i => ((data.drop i).take period).sum / (period : ℚ))

/-- One step of the EMA recurrence producing the tail of the output series. -/
def emaFrom (alpha : ℚ) (prev : ℚ) : List ℚ → List ℚ
  | [] => []
  | x :: xs =>
      let v := prev + alpha * (x - prev)
      v :: emaFrom alpha v xs

/-- Modelled from the spec: the underlying EMA numerical routine is a standard
library call (`tulind.indicators.ema`), declared out of scope by the spec; the
spec fixes its contract as the exponential moving average with smoothing
`2/(period+1)`, seeded from the initial simple average, output length
`len - (period - 1)` aligned to the input tail. -/
def emaSeries (data : List ℚ) (period : Nat) : List ℚ :=
  let alpha : ℚ := 2 / ((period : ℚ) + 1)
  let seed : ℚ := ((data.take period).sum) / (period : ℚ)
  seed :: emaFrom alpha seed (data.drop period)

/-- Embedding of `calculateMA` (backend/indicators.js): rejects with an
insufficient-data error when `data.length < period`, otherwise delegates to
the SMA routine. -/
def calculateMA (data : List ℚ) (period : Nat) : Except IndicatorError (List ℚ) :=
  if data.length < period then
    .error (.insufficientData period data.length)
  else
    .ok (smaSeries data period)

/-- Embedding of `calculateEMA` (backend/indicators.js): rejects with an
insufficient-data error when `data.length < period`, otherwise delegates to
the EMA routine. -/
def calculateEMA (data : List ℚ) (period : Nat) : Except IndicatorError (List ℚ) :=
  if data.length < period then
    .error (.insufficientData period data.length)
  else
    .ok (emaSeries data period)

/-- Embedding of `calculateIndicator` (backend/indicators.js). -/
def calculateIndicator (data : List ℚ) (type : String) (period : Nat) :
    Except IndicatorError (List ℚ) :=
  if type = "ma" then calculateMA data period
  else if type = "ema" then calculateEMA data period
  else .error (.unknownType type)

/-- Embedding of `getRequiredCandles` (backend/indicators.js):
`Math.ceil(period * 2.5)`. -/
def getRequiredCandles (period : Nat) : Nat :=
  (5 * period + 1) / 2

/-! ## backend/server.js: thresholds, signal snapshots, support/resistance -/

/-- Embedding of the `AT_THRESHOLDS` lookup with its `|| 0.002` default
(backend/server.js): dynamic threshold percentages for the "at" comparison
by timeframe. -/
def atThreshold (timeframe : String) : ℚ :=
  if timeframe = "15m" then 0.0005
  else if timeframe = "1h" then 0.001
  else if timeframe = "2h" then 0.0015
  else if timeframe = "4h" then 0.002
  else if timeframe = "12h" then 0.003
  else if timeframe = "1d" then 0.005
  else if timeframe = "3d" then 0.007
  else if timeframe = "1w" then 0.01
  else 0.002

/-- Threshold table written from the spec's words, for comparison with the
code's `atThreshold`: 15m 0.05%, 1h 0.1%, 2h 0.15%, 4h 0.2%, 12h 0.3%,
1d 0.5%, 3d 0.7%, 1w 1.0%; unknown timeframe defaults to 0.2%. -/
def specAtThreshold (timeframe : String) : ℚ :=
  if timeframe = "15m" then 0.05 / 100
  else if timeframe = "1h" then 0.1 / 100
  else if timeframe = "2h" then 0.15 / 100
  else if timeframe = "4h" then 0.2 / 100
  else if timeframe = "12h" then 0.3 / 100
  else if timeframe = "1d" then 0.5 / 100
  else if timeframe = "3d" then 0.7 / 100
  else if timeframe = "1w" then 1.0 / 100
  else 0.2 / 100

/-- The signed percentage distance `(price - indValue) / indValue` computed by
the support/resistance loop body for the candle `i` places before the current
one (`priceIdx = closePrices.length - 1 - i`, likewise for the indicator). -/
def srDiffPercent (closePrices indicatorValues : List ℚ) (i : Nat) : ℚ :=
  (closePrices.getD (closePrices.length - 1 - i) 0
      - indicatorValues.getD (indicatorValues.length - 1 - i) 0)
    / indicatorValues.getD (indicatorValues.length - 1 - i) 0

/-- Embedding of `detectSupportResistanceLevel` (backend/server.js): labels an
"at indicator" reading as support, resistance or neither, from the 3 candles
immediately preceding the current one.  The loop body
`if (diffPercent <= threshold) allAbove = false; if (diffPercent >= -threshold)
allBelow = false` is rendered as the conjunctive fold over `i = 1, 2, 3`, with
the loop's distance computation named `srDiffPercent`; the in-loop
`priceIdx < 0` guard is unreachable because both lengths are at least 4. -/
def detectSupportResistanceLevel (closePrices indicatorValues : List ℚ)
    (threshold : ℚ) : Option String :=
  -- Need at least 4 data points (3 historical + current)
  if closePrices.length < 4 || indicatorValues.length < 4 then none
  else
    let flags := [1, 2, 3].foldl
      (fun (fl : Bool × Bool) i =>
        let diffPercent := srDiffPercent closePrices indicatorValues i
        (fl.1 && decide (diffPercent > threshold),
         fl.2 && decide (diffPercent < -threshold)))
      (true, true)
    if flags.1 then some "support"
    else if flags.2 then some "resistance"
    else none

/-- One per-indicator entry of the `results` object built by `getCoinData`
(backend/server.js), restricted to the fields the alert engine and signal
matcher read. -/
structure SnapshotResult where
  price : ℚ
  indicatorValue : ℚ
  aboveIndicator : Bool
  belowIndicator : Bool
  atIndicator : Bool
  diffPercent : ℚ
  supportResistance : Option String
  timeframe : String
  -- cluster fields, attached by the cluster pass of getCoinData; absent
  -- (JS `undefined`, falsy) on plain results
  isCluster : Bool := false
  clusterMin : ℚ := 0
  clusterMax : ℚ := 0
  clusterMid : ℚ := 0
  aboveCluster : Bool := false
  belowCluster : Bool := false
  atCluster : Bool := false
  clusterSupportResistance : Option String := none
  deriving Repr, DecidableEq

/-- Embedding of the per-indicator core of `getCoinData` (backend/server.js,
Phase 3 version): from the fetched close prices and the computed indicator
series, take the second-to-last (last closed) candle and classify the price
against the indicator value.  Returns `none` when fewer than 2 candles were
fetched (the `klines.length < 2` guard) or when the indicator series does not
reach back to the closed candle (in JS the comparisons against `undefined`
would poison the entry). -/
def buildSnapshotResult (closePrices indicatorValues : List ℚ)
    (timeframe : String) (detectSupportResistance : Bool) : Option SnapshotResult :=
  if closePrices.length < 2 || indicatorValues.length < 2 then none
  else
    let currentPrice := closePrices.getD (closePrices.length - 2) 0
    let currentIndicatorValue := indicatorValues.getD (indicatorValues.length - 2) 0
    let thr := atThreshold timeframe
    let diffPercent := |currentPrice - currentIndicatorValue| / currentIndicatorValue
    let isAtIndicator := decide (diffPercent ≤ thr)
    let supportResistance :=
      if detectSupportResistance && isAtIndicator && decide (4 ≤ indicatorValues.length) then
        detectSupportResistanceLevel closePrices indicatorValues thr
      else none
    some {
      price := currentPrice
      indicatorValue := currentIndicatorValue
      aboveIndicator := decide (currentPrice > currentIndicatorValue)
      belowIndicator := decide (currentPrice < currentIndicatorValue)
      atIndicator := isAtIndicator
      diffPercent := diffPercent
      supportResistance := supportResistance
      timeframe := timeframe
    }

/-! ## backend/alertManager.js -/

/-- Split a character list on `':'` (the `split(':')` of `isQuietHours`). -/
def splitColonAux (acc : List Char) : List Char → List (List Char)
  | [] => [acc.reverse]
  | c :: rest =>
      if c = ':' then acc.reverse :: splitColonAux [] rest
      else splitColonAux (c :: acc) rest

/-- Minutes since midnight of a `"HH:MM"` string, as computed by
`split(':').map(Number)` followed by `hour * 60 + min` in `isQuietHours`. -/
def hhmmToMinutes (s : String) : Nat :=
  match (splitColonAux [] s.toList).map digitsToNat with
  | [h, m] => h * 60 + m
  | _ => 0

/-- Embedding of the membership test at the heart of `isQuietHours`
(backend/alertManager.js), over minutes since midnight: the overnight case
(`start > end`) is quiet after the start or before the end, the same-day case
is quiet between start (inclusive) and end (exclusive). -/
def quietAtMinutes (startMinutes endMinutes currentMinutes : Nat) : Bool :=
  if startMinutes > endMinutes then
    -- Overnight: quiet if after start OR before end
    decide (currentMinutes ≥ startMinutes) || decide (currentMinutes < endMinutes)
  else
    -- Same day: quiet if between start and end
    decide (currentMinutes ≥ startMinutes) && decide (currentMinutes < endMinutes)

/-- Embedding of `isQuietHours` (backend/alertManager.js) after the current
time has been rendered to `"HH:MM"` in the configured timezone. -/
def isQuietHours (quietHoursStart quietHoursEnd nowHHMM : String) : Bool :=
  quietAtMinutes (hhmmToMinutes quietHoursStart) (hhmmToMinutes quietHoursEnd)
    (hhmmToMinutes nowHHMM)

/-- The alert record (backend/alertManager.js `createAlert`), restricted to the
fields the evaluation loop reads and writes.  ISO timestamps are abstracted to
the `Nat` cycle clock handed to the engine. -/
structure Alert where
  coin : String
  condition : String
  indicator : String
  period : Nat
  timeframe : String
  srFilter : Option String
  useTrend : Bool
  frequency : String
  enabled : Bool
  lastTriggered : Option Nat
  lastState : Option String
  lastStateChangedAt : Option Nat
  lastCheckedAt : Option Nat
  deriving Repr, DecidableEq

/-- Embedding of `determineCurrentState` (backend/alertManager.js): derive the
per-cycle state of an alert from the snapshot entry, cluster-aware. -/
def determineCurrentState (alert : Alert) (result : SnapshotResult) : String :=
  if alert.useTrend then
    if result.aboveCluster then "above"
    else if result.belowCluster then "below"
    else if result.atCluster then "at"
    else "away"
  else
    if result.aboveIndicator then "above"
    else if result.belowIndicator then "below"
    else if result.atIndicator then "at"
    else "away"

/-- Embedding of `conditionMatches` (backend/alertManager.js). -/
def conditionMatches (alert : Alert) (currentState : String) : Bool :=
  if alert.condition = "above" then currentState = "above"
  else if alert.condition = "below" then currentState = "below"
  else if alert.condition = "at" then currentState = "at"
  else false

/-- Embedding of the trigger decision of `evaluateAlert`
(backend/alertManager.js lines 366-382): `once` triggers whenever the
condition holds; `repeat` triggers on the very first evaluation iff the
condition holds, and afterwards only on a state transition into the target
condition. -/
def decideShouldTrigger (frequency : String) (lastState : Option String)
    (currentState : String) (conditionMet : Bool) : Bool :=
  if frequency = "once" then conditionMet
  else if frequency = "repeat" then
    match lastState with
    | none => conditionMet
    | some s => decide (s ≠ currentState) && conditionMet
  else false

/-- Outcome of evaluating one alert against one coin's snapshot entry. -/
structure EvalOutcome where
  alert : Alert
  shouldTrigger : Bool
  triggered : Bool
  deriving Repr, DecidableEq

/-- Embedding of the single-coin loop body of `evaluateAlert`
(backend/alertManager.js lines 332-415): determine the current state, decide
the trigger from the frequency, update the state-tracking fields (for
non-"any" alerts), then apply the support/resistance filter.  `result` is the
snapshot entry looked up for the alert's indicator key (`none` when the fetch
or the lookup failed, in which case the iteration is skipped). -/
def evaluateAlertStep (alert : Alert) (result : Option SnapshotResult)
    (now : Nat) : EvalOutcome :=
  match result with
  | none => { alert := alert, shouldTrigger := false, triggered := false }
  | some r =>
      let currentState := determineCurrentState alert r
      let lastState := alert.lastState
      let hasTransitioned := decide (lastState ≠ none) && decide (lastState ≠ some currentState)
      let conditionMet := conditionMatches alert currentState
      let shouldTrigger := decideShouldTrigger alert.frequency lastState currentState conditionMet
      -- Update alert state tracking (for single-coin alerts)
      let alert' :=
        if alert.coin ≠ "any" then
          { alert with
              lastState := some currentState
              lastCheckedAt := some now
              lastStateChangedAt :=
                if hasTransitioned then some now else alert.lastStateChangedAt }
        else alert
      -- Check S/R filter if specified
      let srOk :=
        match alert.srFilter with
        | none => true
        | some f =>
            if alert.useTrend then
              decide (r.clusterSupportResistance = some f) ||
                decide (r.supportResistance = some f)
            else decide (r.supportResistance = some f)
      { alert := alert', shouldTrigger := shouldTrigger,
        triggered := shouldTrigger && srOk }

/-- Embedding of one alert's share of a `checkAlerts` run
(backend/alertManager.js lines 437-475): only enabled alerts are evaluated; a
triggering alert records `lastTriggered`, and a triggering one-time alert is
disabled. -/
def checkAlertStep (alert : Alert) (result : Option SnapshotResult)
    (now : Nat) : Alert × Bool :=
  if alert.enabled then
    let out := evaluateAlertStep alert result now
    if out.triggered then
      let a := out.alert
      let a := { a with lastTriggered := some now }
      let a := if a.frequency = "once" then { a with enabled := false } else a
      (a, true)
    else (out.alert, false)
  else (alert, false)

/-- Iterated `checkAlerts` cycles for one alert: thread the mutated alert
record through consecutive scheduled runs, cycle `n` receiving the snapshot
entry `results[n]`; returns the list of trigger decisions. -/
def runCheckCycles (alert : Alert) (results : List (Option SnapshotResult))
    (n : Nat) : List Bool :=
  match results with
  | [] => []
  | r :: rest =>
      let (a', t) := checkAlertStep alert r n
      t :: runCheckCycles a' rest (n + 1)

/-- Iterated `evaluateAlert` trigger decisions for one alert (no
enable/disable bookkeeping, as within `evaluateAlert` itself): the list of
`shouldTrigger` decisions over consecutive cycles. -/
def runEvalCycles (alert : Alert) (results : List SnapshotResult)
    (n : Nat) : List Bool :=
  match results with
  | [] => []
  | r :: rest =>
      let out := evaluateAlertStep alert (some r) n
      out.shouldTrigger :: runEvalCycles out.alert rest (n + 1)

/-! ## backend/nlpParserV2.js: enums and indicator-token scanning

The parser is a cascade of regular-expression tests; the scanners below
implement the exact patterns of the source with JavaScript `exec`/`test`
semantics (leftmost match, alternatives in order, greedy quantifiers with
backtracking, `lastIndex` advancing past each global match). -/

/-- Valid timeframe enum (`VALID_TIMEFRAMES`). -/
def validTimeframes : List String := ["15m", "1h", "2h", "4h", "12h", "1d", "3d", "1w"]

/-- Valid MA periods (`VALID_MA_PERIODS`). -/
def validMaPeriods : List Nat := [100, 300]

/-- Valid EMA periods (`VALID_EMA_PERIODS`). -/
def validEmaPeriods : List Nat := [13, 25, 32, 200]

/-- Period validity for a kind, as checked by both parsers. -/
def validPeriodFor (kind : String) (period : Nat) : Bool :=
  if kind = "ema" then validEmaPeriods.contains period
  else validMaPeriods.contains period

/-- Timeframe alias conversion and validation used by
`parseIndicatorPositioning` and `extractAllIndicators`: daily/hourly/weekly
map to their codes, anything else must be in the valid enum, else dropped. -/
def normalizeTimeframe (tf : String) : Option String :=
  if tf = "daily" then some "1d"
  else if tf = "hourly" then some "1h"
  else if tf = "weekly" then some "1w"
  else if validTimeframes.contains tf then some tf
  else none

/-- Candidates for the timeframe group of a token match, in the regex
backtracking order of the alternation `(\d+[mhdw]|daily|hourly|weekly)`:
digit prefixes longest first, each followed by a unit letter, then the word
aliases.  Each candidate is paired with its consumed length. -/
def tfCandidates (cs : List Char) : List (String × Nat) :=
  let ds := digitRun cs
  ((List.range ds.length).reverse).filterMap (fun j =>
    match cs.get? (j + 1) with
    | some c =>
        if c = 'm' || c = 'h' || c = 'd' || c = 'w' then
          some (String.mk (ds.take (j + 1) ++ [c]), j + 2)
        else none
    | none => none)
  ++ (if isPrefixList "daily".toList cs then [("daily", 5)] else [])
  ++ (if isPrefixList "hourly".toList cs then [("hourly", 6)] else [])
  ++ (if isPrefixList "weekly".toList cs then [("weekly", 6)] else [])

/-- Match of the pattern fragment `(ema|ma)\s*(\d+)` at the head of `cs`:
returns the kind, the period and the number of consumed characters. -/
def matchIndicatorTail (cs : List Char) : Option (String × Nat × Nat) :=
  let tryKind : String → Option (String × Nat × Nat) := fun kw =>
    if isPrefixList kw.toList cs then
      let after := cs.drop kw.length
      let ws := wsRun after
      let ds := digitRun (after.drop ws.length)
      if ds.isEmpty then none
      else some (kw, digitsToNat ds, kw.length + ws.length + ds.length)
    else none
  match tryKind "ema" with
  | some r => some r
  | none => tryKind "ma"

/-- Match of the whole token pattern
`(?:(\d+[mhdw]|daily|hourly|weekly)\s*)?(ema|ma)\s*(\d+)` at the head of `cs`:
the optional timeframe group is greedy, so the with-timeframe attempts come
first.  Returns raw timeframe group, kind, period and consumed length. -/
def tryMatchIndicatorAt (cs : List Char) : Option (Option String × String × Nat × Nat) :=
  let withTf := (tfCandidates cs).findSome? (fun tfk =>
    let after := cs.drop tfk.2
    let ws := wsRun after
    match matchIndicatorTail (after.drop ws.length) with
    | some (kind, period, k) => some (some tfk.1, kind, period, tfk.2 + ws.length + k)
    | none => none)
  match withTf with
  | some r => some r
  | none =>
      match matchIndicatorTail cs with
      | some (kind, period, k) => some ((none : Option String), kind, period, k)
      | none => none

/-- Global scan (`pattern.exec` loop) for the indicator-token pattern; the
fuel starts at the text length and each step consumes at least one character. -/
def scanIndicatorsAux (fuel : Nat) (cs : List Char) : List (Option String × String × Nat) :=
  match fuel with
  | 0 => []
  | fuel + 1 =>
      match tryMatchIndicatorAt cs with
      | some (tf, kind, period, k) =>
          (tf, kind, period) :: scanIndicatorsAux fuel (cs.drop (max k 1))
      | none =>
          match cs with
          | [] => []
          | _ :: rest => scanIndicatorsAux fuel rest

/-- All matches of the indicator-token pattern in `s`, in order. -/
def scanIndicators (s : String) : List (Option String × String × Nat) :=
  scanIndicatorsAux s.toList.length s.toList

/-- Number of matches of `(ema|ma)\s*\d+` in `cs`
(the `normalized.match(...).length` count of `detectIndicatorPositioning`). -/
def countIndicatorMentionsAux (fuel : Nat) (cs : List Char) : Nat :=
  match fuel with
  | 0 => 0
  | fuel + 1 =>
      match matchIndicatorTail cs with
      | some (_, _, k) => 1 + countIndicatorMentionsAux fuel (cs.drop (max k 1))
      | none =>
          match cs with
          | [] => 0
          | _ :: rest => countIndicatorMentionsAux fuel rest

/-- Count of indicator mentions in a string. -/
def countIndicatorMentions (s : String) : Nat :=
  countIndicatorMentionsAux s.toList.length s.toList

/-- Embedding of `detectIndicatorPositioning` (backend/nlpParserV2.js):
classifies a query as a between / order / comparison positional query, in
that priority order, or none. -/
def detectIndicatorPositioning (query : String) : Option String :=
  let normalized := lowerStr query
  if containsWord "between" normalized then some "between"
  else
    let hasOrderKeywords := containsWord "ascending" normalized ||
      containsWord "descending" normalized || containsWord "order" normalized
    let hasOrderSymbols := containsChar '<' normalized || containsChar '>' normalized
    let hasMultipleIndicators := decide (2 ≤ countIndicatorMentions normalized)
    if (hasOrderKeywords || hasOrderSymbols) && hasMultipleIndicators then some "order"
    else
      let noCoinsKeyword := !(containsWord "coins" normalized || containsWord "coin" normalized ||
        containsWord "show" normalized || containsWord "find" normalized ||
        containsWord "list" normalized)
      let hasComparison := containsWord "above" normalized || containsWord "below" normalized ||
        containsWord "over" normalized || containsWord "under" normalized
      if hasMultipleIndicators && noCoinsKeyword && hasComparison then some "comparison"
      else none

/-- First index at which `pat` occurs in `cs` (`String.indexOf`). -/
def indexOfSubstr (pat : List Char) : List Char → Option Nat
  | [] => if isPrefixList pat [] then some 0 else none
  | c :: rest =>
      if isPrefixList pat (c :: rest) then some 0
      else (indexOfSubstr pat rest).map (· + 1)

/-- Does the pattern `price\s*<` match at the head of `cs`? -/
def priceThenLtAt (cs : List Char) : Bool :=
  if isPrefixList "price".toList cs then
    let after := cs.drop 5
    match after.drop (wsRun after).length with
    | '<' :: _ => true
    | _ => false
  else false

/-- Does the pattern `<\s*price` match at the head of `cs`? -/
def ltThenPriceAt (cs : List Char) : Bool :=
  match cs with
  | '<' :: rest => isPrefixList "price".toList (rest.drop (wsRun rest).length)
  | _ => false

/-- Regex `test`: does `p` match at the head of some suffix of `cs`? -/
def anySuffix (p : List Char → Bool) : List Char → Bool
  | [] => p []
  | c :: rest => p (c :: rest) || anySuffix p rest

/-- Embedding of `detectPricePosition` (backend/nlpParserV2.js): where the
live price sits in an ordering query, counted by the `<` operators around the
word `price`. -/
def detectPricePosition (query : String) (numIndicators : Nat) : Option Nat :=
  let normalized := lowerStr query
  let cs := normalized.toList
  match indexOfSubstr "price".toList cs with
  | none => none
  | some priceIndex =>
      let beforePrice := cs.take priceIndex
      let afterPrice := cs.drop priceIndex
      let beforeCount := beforePrice.count '<'
      let afterCount := afterPrice.count '<'
      if anySuffix priceThenLtAt cs && beforeCount = 0 then some 0
      else if anySuffix ltThenPriceAt cs && afterCount = 0 then some numIndicators
      else if 0 < beforeCount then some beforeCount
      else none

/-- An indicator mention with its timeframe resolved (the element shape pushed
by `parseIndicatorPositioning`, where a missing or invalid timeframe falls
back to `'1d'`). -/
structure IndicatorSpec where
  timeframe : String
  indicator : String
  period : Nat
  deriving Repr, DecidableEq

/-- The `PositionalRelationship` tagged union produced by
`parseIndicatorPositioning`. -/
inductive Positioning where
  | between (target lower upper : IndicatorSpec)
  | priceBetween (lower upper : IndicatorSpec)
  | order (indicators : List IndicatorSpec) (orderType : String)
      (includePrice : Bool) (pricePosition : Option Nat)
  | comparison (target reference : IndicatorSpec) (comparison : String)
  deriving Repr, DecidableEq

/-- Embedding of `parseIndicatorPositioning` (backend/nlpParserV2.js). -/
def parseIndicatorPositioning (query : String) : Option Positioning :=
  let normalized := lowerStr query
  match detectIndicatorPositioning query with
  | none => none
  | some positioningType =>
      let includesPrice := containsWord "price" normalized
      let found : List IndicatorSpec := (scanIndicators normalized).filterMap
        (fun m =>
          let timeframe := m.1.bind normalizeTimeframe
          if validPeriodFor m.2.1 m.2.2 then
            some { timeframe := timeframe.getD "1d", indicator := m.2.1, period := m.2.2 }
          else none)
      if positioningType = "between" then
        if includesPrice && decide (2 ≤ found.length) then
          match found with
          | m0 :: m1 :: _ => some (.priceBetween m0 m1)
          | _ => none
        else if decide (3 ≤ found.length) then
          match found with
          | m0 :: m1 :: m2 :: _ => some (.between m0 m1 m2)
          | _ => none
        else none
      else if positioningType = "order" then
        match found with
        | _ :: _ :: _ =>
            let isDescending := containsWord "descending" normalized || containsChar '>' normalized
            let pricePosition :=
              if includesPrice then detectPricePosition normalized found.length else none
            some (.order found (if isDescending then "descending" else "ascending")
              includesPrice pricePosition)
        | _ => none
      else if positioningType = "comparison" then
        match found with
        | m0 :: m1 :: _ =>
            some (.comparison m0 m1
              (if containsWord "above" normalized then "above" else "below"))
        | _ => none
      else none

/-! ## backend/nlpParser.js: coin extraction and intent detection -/

/-- Coin alias table of `extractCoin`, in insertion order. -/
def coinAliases : List (String × String) :=
  [("BITCOIN", "BTC"), ("ETHEREUM", "ETH"), ("BINANCE", "BNB"), ("SOLANA", "SOL"),
   ("RIPPLE", "XRP"), ("CARDANO", "ADA"), ("DOGECOIN", "DOGE"), ("POLYGON", "MATIC"),
   ("POLKADOT", "DOT"), ("AVALANCHE", "AVAX"), ("CHAINLINK", "LINK"), ("LITECOIN", "LTC")]

/-- Words excluded as coin-symbol candidates by `extractCoin`. -/
def excludeWords : List String :=
  ["EMA", "MA", "PRICE", "VOLUME", "ABOVE", "BELOW", "WHAT", "THE", "OF",
   "FOR", "IS", "SHOW", "ME", "COINS", "USDT"]

/-- Longest prefix of `cs` made of uppercase ASCII letters. -/
def upperRun (cs : List Char) : List Char :=
  match cs with
  | [] => []
  | c :: rest => if c.isUpper then c :: upperRun rest else []

/-- Match of the pattern `\b([A-Z]{2,5})(?=\s|$|USDT)` at the head of `cs`
(`prev` says whether the preceding character was a word character): greedy
2-5 uppercase letters with backtracking against the lookahead. -/
def coinP1At (prev : Bool) (cs : List Char) : Option (String × Nat) :=
  if prev then none
  else
    let run := upperRun cs
    if run.length < 2 then none
    else
      ((List.range' 2 (min 5 run.length - 1)).reverse).findSome? (fun len =>
        let after := cs.drop len
        let ok := match after with
          | [] => true
          | c :: _ => isWs c || isPrefixList "USDT".toList after
        if ok then some (String.mk (run.take len), len) else none)

/-- Global-scan candidate list for the first `extractCoin` pattern. -/
def coinP1Aux (fuel : Nat) (prev : Bool) (cs : List Char) : List String :=
  match fuel with
  | 0 => []
  | fuel + 1 =>
      match coinP1At prev cs with
      | some (cand, k) => cand :: coinP1Aux fuel true (cs.drop (max k 1))
      | none =>
          match cs with
          | [] => []
          | c :: rest => coinP1Aux fuel (isWordChar c) rest

/-- Candidates of the anchored pattern `^([A-Z]{2,5})\s`. -/
def coinP2 (cs : List Char) : List String :=
  let run := upperRun cs
  if run.length < 2 then []
  else
    match ((List.range' 2 (min 5 run.length - 1)).reverse).findSome? (fun len =>
      match cs.drop len with
      | c :: _ => if isWs c then some (String.mk (run.take len)) else none
      | [] => none) with
    | some cand => [cand]
    | none => []

/-- Match of the pattern `\s([A-Z]{2,5})\s` at the head of `cs`. -/
def coinP3At (cs : List Char) : Option (String × Nat) :=
  match cs with
  | c :: rest =>
      if isWs c then
        let run := upperRun rest
        if run.length < 2 then none
        else
          ((List.range' 2 (min 5 run.length - 1)).reverse).findSome? (fun len =>
            match rest.drop len with
            | c2 :: _ => if isWs c2 then some (String.mk (run.take len), len + 2) else none
            | [] => none)
      else none
  | [] => none

/-- Global-scan candidate list for the third `extractCoin` pattern. -/
def coinP3Aux (fuel : Nat) (cs : List Char) : List String :=
  match fuel with
  | 0 => []
  | fuel + 1 =>
      match coinP3At cs with
      | some (cand, k) => cand :: coinP3Aux fuel (cs.drop (max k 1))
      | none =>
          match cs with
          | [] => []
          | _ :: rest => coinP3Aux fuel rest

/-- Match of the pattern `\s([A-Z]{2,5})$` at the head of `cs`. -/
def coinP4At (cs : List Char) : Option (String × Nat) :=
  match cs with
  | c :: rest =>
      if isWs c then
        let run := upperRun rest
        if run.length < 2 then none
        else
          ((List.range' 2 (min 5 run.length - 1)).reverse).findSome? (fun len =>
            if rest.drop len = [] then some (String.mk (run.take len), len + 1) else none)
      else none
  | [] => none

/-- Global-scan candidate list for the fourth `extractCoin` pattern. -/
def coinP4Aux (fuel : Nat) (cs : List Char) : List String :=
  match fuel with
  | 0 => []
  | fuel + 1 =>
      match coinP4At cs with
      | some (cand, k) => cand :: coinP4Aux fuel (cs.drop (max k 1))
      | none =>
          match cs with
          | [] => []
          | _ :: rest => coinP4Aux fuel rest

/-- Embedding of `extractCoin` (backend/nlpParser.js): alias table first, then
the four symbol patterns in order, returning the first candidate that is not
an excluded word. -/
def extractCoin (query : String) : Option String :=
  let normalized := upperStr query
  match coinAliases.findSome?
      (fun a => if containsSubstr a.1 normalized then some a.2 else none) with
  | some sym => some sym
  | none =>
      let cs := normalized.toList
      let candidates := coinP1Aux cs.length false cs ++ coinP2 cs ++
        coinP3Aux cs.length cs ++ coinP4Aux cs.length cs
      candidates.find? (fun cand => !excludeWords.contains cand && 2 ≤ cand.length)

/-- The test `/\bshow\b|\bfind\b|\blist\b|\bcoins?\b/i` shared by
`detectIntent`. -/
def hasScanKeyword (normalized : String) : Bool :=
  containsWord "show" normalized || containsWord "find" normalized ||
    containsWord "list" normalized || containsWord "coins" normalized ||
    containsWord "coin" normalized

/-- Embedding of `detectIntent` (backend/nlpParser.js).  The unanchored test
`/(ema|ma)/i` is the substring test for `"ma"` (every occurrence of `ema`
contains `ma`). -/
def detectIntent (query : String) : String :=
  let normalized := lowerStr query
  if containsSubstr "ma" normalized && (extractCoin query).isSome &&
      !hasScanKeyword normalized then "indicator_value"
  else if (containsWord "price" normalized || containsWord "cost" normalized ||
      containsWord "value" normalized || containsWord "worth" normalized) &&
      !containsSubstr "ma" normalized then "price"
  else if hasScanKeyword normalized then "scan"
  else if containsWord "ema" normalized || containsWord "ma" normalized then "scan"
  else "unknown"

/-! ## backend/nlpParserV2.js: trend, logic, conditions, main parser -/

/-- Match of the pattern `(?:(\d+[mhdw]|daily|hourly|weekly)\s+)?trend` at the
head of `cs` (the greedy optional timeframe group is tried first); returns the
raw timeframe group of the match. -/
def tryTrendAt (cs : List Char) : Option (Option String) :=
  let withTf := (tfCandidates cs).findSome? (fun tfk =>
    let after := cs.drop tfk.2
    let ws := wsRun after
    if ws.isEmpty then none
    else if isPrefixList "trend".toList (after.drop ws.length) then some tfk.1
    else none)
  match withTf with
  | some tf => some (some tf)
  | none => if isPrefixList "trend".toList cs then some none else none

/-- Leftmost match of the trend pattern (`exec` semantics). -/
def findTrendAux (fuel : Nat) (cs : List Char) : Option (Option String) :=
  match fuel with
  | 0 => none
  | fuel + 1 =>
      match tryTrendAt cs with
      | some r => some r
      | none =>
          match cs with
          | [] => none
          | _ :: rest => findTrendAux fuel rest

/-- The trend-cluster expansion produced by `extractTrendQuery`. -/
structure TrendQuery where
  timeframe : String
  indicators : List IndicatorSpec
  deriving Repr, DecidableEq

/-- Embedding of `extractTrendQuery` (backend/nlpParserV2.js).  The alias
rewriting reproduces the source's `if`-chain, in which the validation `else`
is attached only to the `weekly` test. -/
def extractTrendQuery (query : String) : Option TrendQuery :=
  let normalized := lowerStr query
  match findTrendAux normalized.toList.length normalized.toList with
  | none => none
  | some tfRaw =>
      let t0 := tfRaw.getD "1d"
      let t1 := if t0 = "daily" then "1d" else t0
      let t2 := if t1 = "hourly" then "1h" else t1
      let timeframe :=
        if t2 = "weekly" then "1w"
        else if validTimeframes.contains t2 then t2
        else "1d"
      some { timeframe := timeframe,
             indicators := [⟨timeframe, "ema", 13⟩, ⟨timeframe, "ema", 25⟩,
               ⟨timeframe, "ema", 32⟩] }

/-- Embedding of `extractSupportResistanceFilter` (backend/nlpParserV2.js).
The source's first test `/\bas\s+support\b/ || /\bsupport\b/` is subsumed by
its second disjunct, so the word tests suffice. -/
def extractSupportResistanceFilter (query : String) : Option String :=
  let normalized := lowerStr query
  if containsWord "support" normalized then some "support"
  else if containsWord "resistance" normalized then some "resistance"
  else none

/-- Embedding of `detectLogic` (backend/nlpParserV2.js). -/
def detectLogic (query : String) : String :=
  let normalized := lowerStr query
  if containsWord "or" normalized then "OR"
  else if containsWord "and" normalized then "AND"
  else "AND"

/-- Match of the split separator `\s+word\s+` at the head of `cs`; both
whitespace runs are greedy and cannot backtrack (a shorter run would leave a
whitespace character where the word must start). -/
def trySepAt (word : List Char) (cs : List Char) : Option Nat :=
  let ws1 := wsRun cs
  if ws1.isEmpty then none
  else
    let after1 := cs.drop ws1.length
    if isPrefixList word after1 then
      let after2 := after1.drop word.length
      let ws2 := wsRun after2
      if ws2.isEmpty then none else some (ws1.length + word.length + ws2.length)
    else none

/-- The `String.split(/\s+word\s+/i)` loop over the lowercased text. -/
def splitOnSepAux (fuel : Nat) (word : List Char) (acc : List Char)
    (cs : List Char) : List String :=
  match fuel with
  | 0 => [String.mk (acc.reverse ++ cs)]
  | fuel + 1 =>
      match trySepAt word cs with
      | some k => String.mk acc.reverse :: splitOnSepAux fuel word [] (cs.drop k)
      | none =>
          match cs with
          | [] => [String.mk acc.reverse]
          | c :: rest => splitOnSepAux fuel word (c :: acc) rest

/-- Split a query on the AND/OR separator.  The source splits the original
text with a case-insensitive separator and lowercases each part before use;
splitting the lowercased text is equivalent because lowercasing preserves
positions. -/
def splitOnSep (word : String) (s : String) : List String :=
  splitOnSepAux (s.toList.length + 1) word.toList [] s.toList

/-- One parsed indicator condition, the element shape pushed by
`extractAllIndicators` (timeframe may still be missing at this stage). -/
structure IndicatorCondition where
  timeframe : Option String
  indicator : String
  period : Nat
  comparison : String
  supportResistanceFilter : Option String
  isCluster : Bool := false
  clusterTimeframe : Option String := none
  deriving Repr, DecidableEq

/-- The comparison word chosen for one non-trend part of a query
(`extractAllIndicators`): `below` beats `<`, `at`, `above` beats `>`, then
the bare symbols, defaulting to `above`. -/
def partComparison (partNorm : String) : String :=
  if containsWord "below" partNorm && !containsChar '<' partNorm then "below"
  else if containsWord "at" partNorm then "at"
  else if containsWord "above" partNorm && !containsChar '>' partNorm then "above"
  else if containsChar '<' partNorm then "below"
  else if containsChar '>' partNorm then "above"
  else "above"

/-- The comparison word chosen for a trend part (`extractAllIndicators`). -/
def trendComparison (partNorm : String) : String :=
  if containsWord "below" partNorm then "below"
  else if containsWord "at" partNorm then "at"
  else "above"

/-- Embedding of `extractAllIndicators` (backend/nlpParserV2.js): split the
query on the AND/OR separator, and extract per part either the trend cluster
or the indicator tokens with the part's comparison word; the
support/resistance filter is query-global and bumps a default `above`
comparison to `at`. -/
def extractAllIndicators (query : String) : List IndicatorCondition :=
  let normalized := lowerStr query
  let trendQuery := extractTrendQuery query
  let logic := detectLogic query
  let sepWord := if logic = "OR" then "or" else "and"
  let parts := splitOnSep sepWord normalized
  let globalSRFilter := extractSupportResistanceFilter query
  parts.foldl (fun acc partNorm =>
    let hasTrend := containsSubstr "trend" partNorm
    match trendQuery with
    | some tq =>
        if hasTrend then
          let c0 := trendComparison partNorm
          let comparison := if globalSRFilter.isSome && c0 = "above" then "at" else c0
          acc ++ tq.indicators.map (fun ind =>
            { timeframe := some ind.timeframe, indicator := ind.indicator,
              period := ind.period, comparison := comparison,
              supportResistanceFilter := globalSRFilter, isCluster := true,
              clusterTimeframe := some tq.timeframe })
        else
          let c0 := partComparison partNorm
          let comparison := if globalSRFilter.isSome && c0 = "above" then "at" else c0
          acc ++ (scanIndicators partNorm).filterMap (fun m =>
            if validPeriodFor m.2.1 m.2.2 then
              some { timeframe := m.1.bind normalizeTimeframe, indicator := m.2.1,
                     period := m.2.2, comparison := comparison,
                     supportResistanceFilter := globalSRFilter }
            else none)
    | none =>
        let c0 := partComparison partNorm
        let comparison := if globalSRFilter.isSome && c0 = "above" then "at" else c0
        acc ++ (scanIndicators partNorm).filterMap (fun m =>
          if validPeriodFor m.2.1 m.2.2 then
            some { timeframe := m.1.bind normalizeTimeframe, indicator := m.2.1,
                   period := m.2.2, comparison := comparison,
                   supportResistanceFilter := globalSRFilter }
          else none)) []

/-- The default document-wide timeframe of `parseComplexQuery`: first valid
code appearing as a substring, overridden by the word aliases. -/
def defaultTimeframeOf (query : String) : String :=
  let normalized := lowerStr query
  let d0 := (validTimeframes.find? (fun tf => containsSubstr tf normalized)).getD "1d"
  let d1 := if containsWord "daily" normalized then "1d" else d0
  let d2 := if containsWord "hourly" normalized then "1h" else d1
  if containsWord "weekly" normalized then "1w" else d2

/-- Output record of `parseComplexQuery`.  The source reuses one `indicators`
field for two shapes — bare specs in positioning mode, conditions otherwise —
rendered here as the two fields `posIndicators` and `conditions`; fields the
source leaves `undefined` in a branch are `none` / `[]`. -/
structure ParsedQuery where
  intent : String
  originalQuery : String
  positioning : Option Positioning
  posIndicators : List IndicatorSpec
  coin : Option String
  timeframe : Option String
  indicator : Option String
  period : Option Nat
  comparison : Option String
  logic : Option String
  conditions : List IndicatorCondition
  deriving Repr, DecidableEq

/-- The spec list attached to a positioning-mode output by
`parseComplexQuery`. -/
def positioningIndicators (p : Positioning) : List IndicatorSpec :=
  match p with
  | .between t l u => [t, l, u]
  | .priceBetween l u => [l, u]
  | .order inds _ _ _ => inds
  | .comparison t r _ => [t, r]

/-- Embedding of `parseComplexQuery` (backend/nlpParserV2.js): positional
detection first — on success the independent-conditions path is skipped —
otherwise intent/logic/conditions extraction with the document-wide default
timeframe, collapsing to the legacy single-indicator shape when exactly one
condition was found. -/
def parseComplexQuery (query : String) : ParsedQuery :=
  match parseIndicatorPositioning query with
  | some positioning =>
      { intent := "indicator_positioning", originalQuery := query,
        positioning := some positioning,
        posIndicators := positioningIndicators positioning,
        coin := none, timeframe := none, indicator := none, period := none,
        comparison := none, logic := none, conditions := [] }
  | none =>
      let intent := detectIntent query
      let logic := detectLogic query
      let indicators := extractAllIndicators query
      let defaultTimeframe := defaultTimeframeOf query
      let finalIndicators := indicators.map (fun ind =>
        { ind with timeframe := some (ind.timeframe.getD defaultTimeframe) })
      match finalIndicators with
      | [onlyInd] =>
          { intent := intent, originalQuery := query, positioning := none,
            posIndicators := [], coin := extractCoin query,
            timeframe := onlyInd.timeframe, indicator := some onlyInd.indicator,
            period := some onlyInd.period, comparison := some onlyInd.comparison,
            logic := some "AND", conditions := [onlyInd] }
      | _ =>
          { intent := intent, originalQuery := query, positioning := none,
            posIndicators := [], coin := extractCoin query,
            timeframe := some defaultTimeframe,
            indicator := (finalIndicators.head?).map (·.indicator),
            period := (finalIndicators.head?).map (·.period),
            comparison := some (((finalIndicators.head?).map (·.comparison)).getD "above"),
            logic := some logic, conditions := finalIndicators }

/-! ## backend/server.js: the positional match filter of handleIndicatorPositioning -/

/-- The `results` key of an indicator spec:
`` `${timeframe}_${indicator}${period}` ``. -/
def keyOf (spec : IndicatorSpec) : String :=
  spec.timeframe ++ "_" ++ spec.indicator ++ toString spec.period

/-- One coin's snapshot map, the `results` object of `getCoinData`, as an
association list from indicator keys to entries. -/
def SnapshotMap := List (String × SnapshotResult)

/-- Key lookup in a snapshot map (`coinData.results[key]`, `undefined`
becoming `none`). -/
def lookupResult (results : SnapshotMap) (key : String) : Option SnapshotResult :=
  List.lookup key results

/-- Strict ascending check of the `order` branch: the loop rejecting
`values[i] >= values[i+1]`. -/
def strictlyAscending : List ℚ → Bool
  | x :: y :: rest => decide (x < y) && strictlyAscending (y :: rest)
  | _ => true

/-- Strict descending check of the `order` branch: the loop rejecting
`values[i] <= values[i+1]`. -/
def strictlyDescending : List ℚ → Bool
  | x :: y :: rest => decide (y < x) && strictlyDescending (y :: rest)
  | _ => true

/-- The "price fits some interior gap" loop of the ascending `order` branch. -/
def fitsGapAsc (price : ℚ) : List ℚ → Bool
  | x :: y :: rest =>
      (decide (x < price) && decide (price < y)) || fitsGapAsc price (y :: rest)
  | _ => false

/-- The "price fits some interior gap" loop of the descending `order` branch. -/
def fitsGapDesc (price : ℚ) : List ℚ → Bool
  | x :: y :: rest =>
      (decide (price < x) && decide (y < price)) || fitsGapDesc price (y :: rest)
  | _ => false

/-- The price-slot check of the ascending `order` branch. -/
def pricePositionOkAsc (price : ℚ) (values : List ℚ) (pricePosition : Option Nat) : Bool :=
  match pricePosition with
  | some p =>
      if p = 0 then
        match values.head? with
        | some v0 => decide (price < v0)
        | none => false
      else if p = values.length then
        match values.getLast? with
        | some vl => decide (vl < price)
        | none => false
      else
        match values.get? (p - 1), values.get? p with
        | some a, some b => decide (a < price) && decide (price < b)
        | _, _ => false
  | none => fitsGapAsc price values

/-- The price-slot check of the descending `order` branch. -/
def pricePositionOkDesc (price : ℚ) (values : List ℚ) (pricePosition : Option Nat) : Bool :=
  match pricePosition with
  | some p =>
      if p = 0 then
        match values.head? with
        | some v0 => decide (v0 < price)
        | none => false
      else if p = values.length then
        match values.getLast? with
        | some vl => decide (price < vl)
        | none => false
      else
        match values.get? (p - 1), values.get? p with
        | some a, some b => decide (price < a) && decide (b < price)
        | _, _ => false
  | none => fitsGapDesc price values

/-- Embedding of the per-coin positioning filter of `handleIndicatorPositioning`
(backend/server.js): between, price-between, order and comparison checks
against one coin's snapshot map.  Any missing entry makes the coin fail; the
price-between and order branches read the live price from the first involved
entry (the source comments that all entries carry the same current price);
the order branch additionally rejects a zero price (`if (!currentPrice)`). -/
def positioningMatches (results : SnapshotMap) (positioning : Positioning) : Bool :=
  match positioning with
  | .between target lower upper =>
      match lookupResult results (keyOf target), lookupResult results (keyOf lower),
          lookupResult results (keyOf upper) with
      | some targetResult, some lowerResult, some upperResult =>
          let targetValue := targetResult.indicatorValue
          let lowerValue := lowerResult.indicatorValue
          let upperValue := upperResult.indicatorValue
          decide (min lowerValue upperValue ≤ targetValue) &&
            decide (targetValue ≤ max lowerValue upperValue)
      | _, _, _ => false
  | .priceBetween lower upper =>
      match lookupResult results (keyOf lower), lookupResult results (keyOf upper) with
      | some lowerResult, some upperResult =>
          let currentPrice := lowerResult.price
          let lowerValue := lowerResult.indicatorValue
          let upperValue := upperResult.indicatorValue
          decide (min lowerValue upperValue ≤ currentPrice) &&
            decide (currentPrice ≤ max lowerValue upperValue)
      | _, _ => false
  | .order indicators orderType includePrice pricePosition =>
      let rec collect : List IndicatorSpec → Option (List ℚ)
        | [] => some []
        | spec :: rest =>
            match lookupResult results (keyOf spec) with
            | some r => (collect rest).map (r.indicatorValue :: ·)
            | none => none
      match collect indicators with
      | none => false
      | some values =>
          let priceOpt :=
            if includePrice then
              match indicators.head? with
              | some first => (lookupResult results (keyOf first)).map (·.price)
              | none => none
            else none
          if includePrice && (priceOpt.isNone || priceOpt = some 0) then false
          else if orderType = "ascending" then
            strictlyAscending values &&
              (!includePrice || pricePositionOkAsc (priceOpt.getD 0) values pricePosition)
          else
            strictlyDescending values &&
              (!includePrice || pricePositionOkDesc (priceOpt.getD 0) values pricePosition)
  | .comparison target reference comparison =>
      match lookupResult results (keyOf target), lookupResult results (keyOf reference) with
      | some targetResult, some refResult =>
          if comparison = "above" then decide (refResult.indicatorValue < targetResult.indicatorValue)
          else decide (targetResult.indicatorValue < refResult.indicatorValue)
      | _, _ => false

/-! ## Helper lemmas -/

/-- Every timeframe threshold of the code's table (including the default) is
positive. -/
theorem atThreshold_pos (timeframe : String) : 0 < atThreshold timeframe := by
  unfold atThreshold
  split_ifs <;> norm_num

/-- The code's threshold table agrees with the spec's percentage table
pointwise, including the default. -/
theorem atThreshold_eq_spec (timeframe : String) :
    atThreshold timeframe = specAtThreshold timeframe := by
  unfold atThreshold specAtThreshold
  split_ifs <;> norm_num

/-! ## C9 -/

/-- C9: For every price series and valid period, the MA and EMA evaluators
fail with an InsufficientData error iff the series length is strictly less
than the period; when the length is at least the required warm-up
(`getRequiredCandles period`) they never raise and return a non-empty result
series. -/
theorem ma_ema_insufficient_data_iff (data : List ℚ) (period : Nat) :
    (calculateMA data period
        = .error (.insufficientData period data.length) ↔ data.length < period) ∧
    (calculateEMA data period
        = .error (.insufficientData period data.length) ↔ data.length < period) ∧
    (getRequiredCandles period ≤ data.length →
      ∃ ma ema, calculateMA data period = .ok ma ∧ ma ≠ [] ∧
        calculateEMA data period = .ok ema ∧ ema ≠ []) := by
  have hlen : period ≤ getRequiredCandles period := by
    unfold getRequiredCandles
    omega
  refine ⟨?_, ?_, ?_⟩
  · unfold calculateMA
    split_ifs with h <;> simp [h]
  · unfold calculateEMA
    split_ifs with h <;> simp [h]
  · intro hwarm
    have hge : ¬ data.length < period := by omega
    refine ⟨smaSeries data period, emaSeries data period, ?_, ?_, ?_, ?_⟩
    · unfold calculateMA
      simp [hge]
    · unfold smaSeries
      have : data.length - period + 1 ≠ 0 := by omega
      simp [List.range_succ]
    · unfold calculateEMA
      simp [hge]
    · unfold emaSeries
      simp

/-- Witness for C9 at a concrete input: three points suffice for period 1. -/
theorem ma_ema_insufficient_data_iff_witness :
    getRequiredCandles 1 ≤ ([10, 20, 30] : List ℚ).length ∧
    ∃ ma ema, calculateMA [10, 20, 30] 1 = .ok ma ∧ ma ≠ [] ∧
      calculateEMA [10, 20, 30] 1 = .ok ema ∧ ema ≠ [] :=
  ⟨by decide, (ma_ema_insufficient_data_iff [10, 20, 30] 1).2.2 (by decide)⟩

/-! ## C5 -/

/-- C5: For every quiet-hours window with start > end (wrapping midnight),
the membership test classifies the current time as quiet iff now ≥ start OR
now < end; for a same-day window (start ≤ end) it is quiet iff
start ≤ now < end.  In particular 23:30 is quiet and 08:00 is not for the
window 23:00-07:00, and 12:00 is quiet and 06:00 is not for 10:00-14:00. -/
theorem quiet_hours_membership :
    (∀ s e now : Nat, e < s →
      (quietAtMinutes s e now = true ↔ s ≤ now ∨ now < e)) ∧
    (∀ s e now : Nat, s ≤ e →
      (quietAtMinutes s e now = true ↔ s ≤ now ∧ now < e)) ∧
    isQuietHours "23:00" "07:00" "23:30" = true ∧
    isQuietHours "23:00" "07:00" "08:00" = false ∧
    isQuietHours "10:00" "14:00" "12:00" = true ∧
    isQuietHours "10:00" "14:00" "06:00" = false := by
  refine ⟨?_, ?_, by decide, by decide, by decide, by decide⟩
  · intro s e now h
    unfold quietAtMinutes
    rw [if_pos (by omega)]
    simp [ge_iff_le]
  · intro s e now h
    unfold quietAtMinutes
    rw [if_neg (by omega)]
    simp [ge_iff_le]

/-- Witness for C5 at concrete minute values on both sides of the window
split. -/
theorem quiet_hours_membership_witness :
    (420 < 1380 ∧ (quietAtMinutes 1380 420 1410 = true ↔ 1380 ≤ 1410 ∨ 1410 < 420)) ∧
    (600 ≤ 840 ∧ (quietAtMinutes 600 840 720 = true ↔ 600 ≤ 720 ∧ 720 < 840)) :=
  ⟨⟨by decide, quiet_hours_membership.1 1380 420 1410 (by decide)⟩,
   ⟨by decide, quiet_hours_membership.2.1 600 840 720 (by decide)⟩⟩

/-! ## C6 -/

/-- C6: For every computed signal snapshot, aboveIndicator holds iff
price > indicatorValue, belowIndicator holds iff price < indicatorValue, and
atIndicator holds iff abs(price - indicatorValue)/indicatorValue is at most
the timeframe's threshold, where the code's threshold table agrees with the
spec's exact table (15m 0.05%, 1h 0.1%, 2h 0.15%, 4h 0.2%, 12h 0.3%, 1d 0.5%,
3d 0.7%, 1w 1.0%, default 0.2%). -/
theorem snapshot_classification (closePrices indicatorValues : List ℚ)
    (timeframe : String) (srFlag : Bool) (r : SnapshotResult)
    (h : buildSnapshotResult closePrices indicatorValues timeframe srFlag = some r) :
    (r.aboveIndicator = true ↔ r.indicatorValue < r.price) ∧
    (r.belowIndicator = true ↔ r.price < r.indicatorValue) ∧
    (r.atIndicator = true ↔
      |r.price - r.indicatorValue| / r.indicatorValue ≤ specAtThreshold timeframe) ∧
    (∀ tf, atThreshold tf = specAtThreshold tf) := by
  unfold buildSnapshotResult at h
  split_ifs at h
  rw [Option.some_inj] at h
  subst h
  refine ⟨by simp, by simp, ?_, atThreshold_eq_spec⟩
  simp [atThreshold_eq_spec]

/-- Witness for C6 at a concrete snapshot. -/
theorem snapshot_classification_witness :
    ∃ r, buildSnapshotResult [100, 103, 104] [99, 102, 101] "1d" false = some r ∧
      ((r.aboveIndicator = true ↔ r.indicatorValue < r.price) ∧
       (r.belowIndicator = true ↔ r.price < r.indicatorValue) ∧
       (r.atIndicator = true ↔
         |r.price - r.indicatorValue| / r.indicatorValue ≤ specAtThreshold "1d") ∧
       (∀ tf, atThreshold tf = specAtThreshold tf)) :=
  ⟨_, rfl, snapshot_classification [100, 103, 104] [99, 102, 101] "1d" false _ rfl⟩

/-! ## C10 -/

/-- C10: For every non-cluster alert evaluation, the derived state is "at"
only when price exactly equals the indicator value (indeed, exactly then),
and the state "away" is never returned: above/below are tested before
atIndicator, so any price within the at-threshold but unequal to the
indicator value is classified "above" or "below". -/
theorem noncluster_state_at_iff_equal (closePrices indicatorValues : List ℚ)
    (timeframe : String) (srFlag : Bool) (alert : Alert) (r : SnapshotResult)
    (halert : alert.useTrend = false)
    (h : buildSnapshotResult closePrices indicatorValues timeframe srFlag = some r) :
    (determineCurrentState alert r = "at" ↔ r.price = r.indicatorValue) ∧
    determineCurrentState alert r ≠ "away" := by
  unfold buildSnapshotResult at h
  split_ifs at h
  rw [Option.some_inj] at h
  subst h
  unfold determineCurrentState
  rw [if_neg (by simp [halert])]
  simp only
  generalize closePrices.getD (closePrices.length - 2) 0 = p
  generalize indicatorValues.getD (indicatorValues.length - 2) 0 = v
  rcases lt_trichotomy p v with hlt | heq | hgt
  · rw [if_neg (by simpa using hlt.asymm), if_pos (by simpa using hlt)]
    exact ⟨⟨fun hc => absurd hc (by decide), fun hpv => absurd hpv (ne_of_lt hlt)⟩,
      by decide⟩
  · subst heq
    rw [if_neg (by simp), if_neg (by simp), if_pos ?_]
    · exact ⟨by simp, by decide⟩
    · simp only [decide_eq_true_eq]
      rw [sub_self, abs_zero, zero_div]
      exact le_of_lt (atThreshold_pos timeframe)
  · rw [if_pos (by simpa using hgt)]
    exact ⟨⟨fun hc => absurd hc (by decide), fun hpv => absurd hpv (ne_of_gt hgt)⟩,
      by decide⟩

/-- Witness for C10 at a concrete non-cluster snapshot and alert. -/
theorem noncluster_state_at_iff_equal_witness :
    ∃ r, buildSnapshotResult [100, 103, 104] [99, 103, 101] "1d" false = some r ∧
      ((determineCurrentState
          { coin := "BTC", condition := "at", indicator := "ma", period := 100,
            timeframe := "1d", srFilter := none, useTrend := false,
            frequency := "once", enabled := true, lastTriggered := none,
            lastState := none, lastStateChangedAt := none, lastCheckedAt := none }
          r = "at" ↔ r.price = r.indicatorValue) ∧
        determineCurrentState
          { coin := "BTC", condition := "at", indicator := "ma", period := 100,
            timeframe := "1d", srFilter := none, useTrend := false,
            frequency := "once", enabled := true, lastTriggered := none,
            lastState := none, lastStateChangedAt := none, lastCheckedAt := none }
          r ≠ "away") :=
  ⟨_, rfl, noncluster_state_at_iff_equal [100, 103, 104] [99, 103, 101] "1d" false _ _ rfl rfl⟩

/-! ## C4 -/

/-- C4: For every price history, indicator history and (non-negative)
threshold: the support/resistance classifier returns none when fewer than 4
data points are supplied; returns support iff for each of the 3 candles
immediately preceding the current one the signed percentage distance
`(price - indicatorValue)/indicatorValue` is cleanly above the threshold;
returns resistance iff all three of those distances are cleanly below the
negated threshold; and returns none for any mixed sequence where neither
condition holds for all three. -/
theorem sr_classifier_characterization (cp iv : List ℚ) (th : ℚ) (hth : 0 ≤ th) :
    (cp.length < 4 ∨ iv.length < 4 → detectSupportResistanceLevel cp iv th = none) ∧
    (4 ≤ cp.length → 4 ≤ iv.length →
      ((detectSupportResistanceLevel cp iv th = some "support" ↔
          ∀ i ∈ [1, 2, 3], th < srDiffPercent cp iv i) ∧
       (detectSupportResistanceLevel cp iv th = some "resistance" ↔
          ∀ i ∈ [1, 2, 3], srDiffPercent cp iv i < -th) ∧
       (detectSupportResistanceLevel cp iv th = none ↔
          ¬(∀ i ∈ [1, 2, 3], th < srDiffPercent cp iv i) ∧
          ¬(∀ i ∈ [1, 2, 3], srDiffPercent cp iv i < -th)))) := by
  constructor
  · intro h
    unfold detectSupportResistanceLevel
    rw [if_pos]
    rcases h with h | h <;> simp [h]
  · intro h1 h2
    unfold detectSupportResistanceLevel
    rw [if_neg (by simp; omega)]
    simp only [List.foldl_cons, List.foldl_nil, List.mem_cons, List.not_mem_nil,
      forall_eq_or_imp, forall_eq, false_implies, implies_true, and_true,
      Bool.true_and, Bool.and_eq_true, decide_eq_true_eq, gt_iff_lt]
    by_cases hP1 : th < srDiffPercent cp iv 1 <;>
      by_cases hP2 : th < srDiffPercent cp iv 2 <;>
      by_cases hP3 : th < srDiffPercent cp iv 3 <;>
      by_cases hQ1 : srDiffPercent cp iv 1 < -th <;>
      by_cases hQ2 : srDiffPercent cp iv 2 < -th <;>
      by_cases hQ3 : srDiffPercent cp iv 3 < -th <;>
      simp only [hP1, hP2, hP3, hQ1, hQ2, hQ3, if_true, if_false, and_true, true_and,
        and_false, false_and, not_true, not_false_iff, if_pos, if_neg, reduceIte,
        Option.some.injEq, reduceCtorEq, String.reduceEq, not_false_eq_true,
        true_iff, iff_true, false_iff, iff_false, not_and, not_lt] <;>
      first
        | rfl
        | (exfalso; linarith)

/-- Witness for C4: a clean three-candle approach from above over a flat
indicator is classified as support. -/
theorem sr_classifier_characterization_witness :
    ((0 : ℚ) ≤ 1/100 ∧ (4 ≤ ([110, 109, 108, 100] : List ℚ).length)) ∧
    (detectSupportResistanceLevel [110, 109, 108, 100] [100, 100, 100, 100] (1/100)
        = some "support" ↔
      ∀ i ∈ [1, 2, 3],
        (1 : ℚ)/100 < srDiffPercent [110, 109, 108, 100] [100, 100, 100, 100] i) :=
  ⟨⟨by norm_num, by decide⟩,
    ((sr_classifier_characterization [110, 109, 108, 100] [100, 100, 100, 100]
      (1/100) (by norm_num)).2 (by decide) (by decide)).1⟩

/-! ## Alert-engine lemmas -/

/-- The evaluation step only writes the state-tracking fields: the
user-supplied definition fields survive unchanged. -/
theorem evaluateAlertStep_preserves (a : Alert) (r : Option SnapshotResult) (n : Nat) :
    (evaluateAlertStep a r n).alert.coin = a.coin ∧
    (evaluateAlertStep a r n).alert.condition = a.condition ∧
    (evaluateAlertStep a r n).alert.useTrend = a.useTrend ∧
    (evaluateAlertStep a r n).alert.frequency = a.frequency ∧
    (evaluateAlertStep a r n).alert.srFilter = a.srFilter ∧
    (evaluateAlertStep a r n).alert.enabled = a.enabled := by
  unfold evaluateAlertStep
  cases r <;> simp <;> split <;> simp

/-- For a single-coin alert, the evaluation step stores the freshly derived
state in lastState. -/
theorem evaluateAlertStep_lastState (a : Alert) (r : SnapshotResult) (n : Nat)
    (h : a.coin ≠ "any") :
    (evaluateAlertStep a (some r) n).alert.lastState
      = some (determineCurrentState a r) := by
  unfold evaluateAlertStep
  simp [h]

/-- The shouldTrigger component of the evaluation step is the frequency-based
trigger decision on the derived state. -/
theorem evaluateAlertStep_shouldTrigger (a : Alert) (r : SnapshotResult) (n : Nat) :
    (evaluateAlertStep a (some r) n).shouldTrigger
      = decideShouldTrigger a.frequency a.lastState (determineCurrentState a r)
          (conditionMatches a (determineCurrentState a r)) := by
  unfold evaluateAlertStep
  simp

/-- The derived state only depends on the alert's useTrend flag. -/
theorem determineCurrentState_congr (a b : Alert) (r : SnapshotResult)
    (h : a.useTrend = b.useTrend) :
    determineCurrentState a r = determineCurrentState b r := by
  unfold determineCurrentState
  rw [h]

/-- The condition test only depends on the alert's condition field. -/
theorem conditionMatches_congr (a b : Alert) (s : String)
    (h : a.condition = b.condition) :
    conditionMatches a s = conditionMatches b s := by
  unfold conditionMatches
  rw [h]

/-- A disabled alert is skipped by the check loop: it is returned untouched
and does not trigger. -/
theorem checkAlertStep_disabled (a : Alert) (res : Option SnapshotResult) (now : Nat)
    (h : a.enabled = false) : checkAlertStep a res now = (a, false) := by
  unfold checkAlertStep
  simp [h]

/-- The check step never changes the frequency field. -/
theorem checkAlertStep_frequency (a : Alert) (res : Option SnapshotResult) (now : Nat) :
    (checkAlertStep a res now).1.frequency = a.frequency := by
  unfold checkAlertStep
  have hp := (evaluateAlertStep_preserves a res now).2.2.2.1
  by_cases he : a.enabled = true
  · rw [if_pos he]
    dsimp only
    by_cases ht : (evaluateAlertStep a res now).triggered = true
    · rw [if_pos ht]
      dsimp only
      split <;> simpa using hp
    · rw [if_neg ht]
      simpa using hp
  · rw [if_neg he]

/-- A triggering check of a once-alert leaves it disabled. -/
theorem checkAlertStep_once_disables (a : Alert) (res : Option SnapshotResult) (now : Nat)
    (hfreq : a.frequency = "once") (htrig : (checkAlertStep a res now).2 = true) :
    (checkAlertStep a res now).1.enabled = false := by
  have hp := (evaluateAlertStep_preserves a res now).2.2.2.1
  unfold checkAlertStep at htrig ⊢
  by_cases he : a.enabled = true
  · rw [if_pos he] at htrig ⊢
    dsimp only at htrig ⊢
    by_cases ht : (evaluateAlertStep a res now).triggered = true
    · rw [if_pos ht]
      dsimp only
      rw [if_pos (show _ = "once" by simpa using hfreq ▸ hp)]
    · rw [if_neg ht] at htrig
      simp at htrig
  · rw [if_neg he] at htrig
    simp at htrig

/-- A sequence of check cycles beginning from a disabled alert never
triggers. -/
theorem runCheckCycles_disabled (results : List (Option SnapshotResult)) :
    ∀ (a : Alert) (n : Nat), a.enabled = false →
      runCheckCycles a results n = List.replicate results.length false := by
  induction results with
  | nil => intro a n _; rfl
  | cons r rest ih =>
      intro a n h
      unfold runCheckCycles
      rw [checkAlertStep_disabled a r n h]
      simp [ih a (n + 1) h, List.replicate_succ]

/-! ## C3 -/

/-- C3: For every alert with frequency once, after its first cycle in which
it triggers the engine sets enabled = false, on every later cycle the alert
is excluded from evaluation (a disabled alert is returned untouched with no
trigger), and across any sequence of check cycles a once-alert triggers at
most one time. -/
theorem once_alert_single_shot (alert : Alert) (hfreq : alert.frequency = "once") :
    (∀ (a : Alert) (res : Option SnapshotResult) (now : Nat), a.enabled = false →
      checkAlertStep a res now = (a, false)) ∧
    (∀ res now, (checkAlertStep alert res now).2 = true →
      (checkAlertStep alert res now).1.enabled = false) ∧
    (∀ results n, (runCheckCycles alert results n).count true ≤ 1) := by
  refine ⟨checkAlertStep_disabled, fun res now => checkAlertStep_once_disables alert res now hfreq, ?_⟩
  intro results
  induction results generalizing alert hfreq with
  | nil => intro n; simp [runCheckCycles]
  | cons r rest ih =>
      intro n
      unfold runCheckCycles
      rcases htrig : (checkAlertStep alert r n).2 with _ | _
      · have hfreq' : (checkAlertStep alert r n).1.frequency = "once" := by
          rw [checkAlertStep_frequency]; exact hfreq
        have := ih (checkAlertStep alert r n).1 hfreq' (n + 1)
        simpa [htrig, List.count_cons] using this
      · have hdis := checkAlertStep_once_disables alert r n hfreq htrig
        have hrest := runCheckCycles_disabled rest (checkAlertStep alert r n).1 (n + 1) hdis
        simp [htrig, hrest, List.count_cons, List.count_replicate]

/-- Witness for C3: a once-alert that is above its indicator on every cycle
triggers exactly once over three cycles. -/
theorem once_alert_single_shot_witness :
    ({ coin := "BTC", condition := "above", indicator := "ema", period := 200,
       timeframe := "4h", srFilter := none, useTrend := false,
       frequency := "once", enabled := true, lastTriggered := none,
       lastState := none, lastStateChangedAt := none,
       lastCheckedAt := none : Alert }).frequency = "once" ∧
    (runCheckCycles
      { coin := "BTC", condition := "above", indicator := "ema", period := 200,
        timeframe := "4h", srFilter := none, useTrend := false,
        frequency := "once", enabled := true, lastTriggered := none,
        lastState := none, lastStateChangedAt := none, lastCheckedAt := none }
      [some { price := 101, indicatorValue := 100, aboveIndicator := true,
              belowIndicator := false, atIndicator := false, diffPercent := 1/100,
              supportResistance := none, timeframe := "4h" },
       some { price := 101, indicatorValue := 100, aboveIndicator := true,
              belowIndicator := false, atIndicator := false, diffPercent := 1/100,
              supportResistance := none, timeframe := "4h" },
       some { price := 101, indicatorValue := 100, aboveIndicator := true,
              belowIndicator := false, atIndicator := false, diffPercent := 1/100,
              supportResistance := none, timeframe := "4h" }] 0).count true ≤ 1 :=
  ⟨rfl,
    (once_alert_single_shot
      { coin := "BTC", condition := "above", indicator := "ema", period := 200,
        timeframe := "4h", srFilter := none, useTrend := false,
        frequency := "once", enabled := true, lastTriggered := none,
        lastState := none, lastStateChangedAt := none, lastCheckedAt := none }
      rfl).2.2 _ 0⟩

/-- A repeat-alert on a specific coin whose state already equals its target
condition never triggers while the state keeps matching the condition: every
cycle sees no transition. -/
theorem runEvalCycles_steady_state (results : List SnapshotResult) :
    ∀ (a : Alert) (n : Nat), a.frequency = "repeat" → a.coin ≠ "any" →
      a.lastState = some a.condition →
      (∀ r ∈ results, determineCurrentState a r = a.condition) →
      runEvalCycles a results n = List.replicate results.length false := by
  induction results with
  | nil => intro a n _ _ _ _; rfl
  | cons r rest ih =>
      intro a n hfreq hcoin hlast hstates
      have hcur : determineCurrentState a r = a.condition :=
        hstates r (List.mem_cons_self r rest)
      have hhead : (evaluateAlertStep a (some r) n).shouldTrigger = false := by
        rw [evaluateAlertStep_shouldTrigger, hfreq, hlast]
        unfold decideShouldTrigger
        simp [hcur]
      have hpres := evaluateAlertStep_preserves a (some r) n
      have htail : runEvalCycles (evaluateAlertStep a (some r) n).alert rest (n + 1)
          = List.replicate rest.length false := by
        refine ih _ (n + 1) ?_ ?_ ?_ ?_
        · rw [hpres.2.2.2.1]; exact hfreq
        · rw [hpres.1]; exact hcoin
        · rw [evaluateAlertStep_lastState a r n hcoin, hcur, hpres.2.1]
        · intro r' hr'
          rw [determineCurrentState_congr _ a r' hpres.2.2.1, hpres.2.1]
          exact hstates r' (List.mem_cons_of_mem r hr')
      unfold runEvalCycles
      dsimp only
      rw [hhead, htail]
      simp [List.replicate_succ]

/-! ## C1 -/

/-- C1: For an alert with frequency repeat on a specific coin, the very first
evaluation (lastState = none) triggers iff the alert's condition is currently
satisfied; every subsequent evaluation triggers iff the newly computed state
differs from the stored lastState and the new state satisfies the condition;
and for every run of consecutive cycles whose state stays equal to the
alert's target condition (condition satisfied at initialization), the alert
triggers on the first cycle only and never on the later ones. -/
theorem repeat_alert_edge_triggered (alert : Alert)
    (hfreq : alert.frequency = "repeat") (hcoin : alert.coin ≠ "any") :
    (∀ (r : SnapshotResult) (n : Nat), alert.lastState = none →
      (evaluateAlertStep alert (some r) n).shouldTrigger
        = conditionMatches alert (determineCurrentState alert r)) ∧
    (∀ (r : SnapshotResult) (n : Nat) (s : String), alert.lastState = some s →
      ((evaluateAlertStep alert (some r) n).shouldTrigger = true ↔
        s ≠ determineCurrentState alert r ∧
          conditionMatches alert (determineCurrentState alert r) = true)) ∧
    (∀ (r0 : SnapshotResult) (rest : List SnapshotResult) (n : Nat),
      alert.lastState = none →
      conditionMatches alert alert.condition = true →
      determineCurrentState alert r0 = alert.condition →
      (∀ r ∈ rest, determineCurrentState alert r = alert.condition) →
      runEvalCycles alert (r0 :: rest) n = true :: List.replicate rest.length false) := by
  refine ⟨?_, ?_, ?_⟩
  · intro r n hlast
    rw [evaluateAlertStep_shouldTrigger, hfreq, hlast]
    unfold decideShouldTrigger
    simp
  · intro r n s hlast
    rw [evaluateAlertStep_shouldTrigger, hfreq, hlast]
    unfold decideShouldTrigger
    simp
  · intro r0 rest n hlast hcondOk hr0 hrest
    have hpres := evaluateAlertStep_preserves alert (some r0) n
    have hhead : (evaluateAlertStep alert (some r0) n).shouldTrigger = true := by
      rw [evaluateAlertStep_shouldTrigger, hfreq, hlast]
      unfold decideShouldTrigger
      simp [hr0, hcondOk]
    have htail :
        runEvalCycles (evaluateAlertStep alert (some r0) n).alert rest (n + 1)
          = List.replicate rest.length false := by
      refine runEvalCycles_steady_state rest _ (n + 1) ?_ ?_ ?_ ?_
      · rw [hpres.2.2.2.1]; exact hfreq
      · rw [hpres.1]; exact hcoin
      · rw [evaluateAlertStep_lastState alert r0 n hcoin, hr0, hpres.2.1]
      · intro r' hr'
        rw [determineCurrentState_congr _ alert r' hpres.2.2.1, hpres.2.1]
        exact hrest r' hr'
    unfold runEvalCycles
    dsimp only
    rw [hhead, htail]

/-- Witness for C1: a fresh repeat-alert that is above its indicator on three
consecutive cycles triggers on the first cycle only. -/
theorem repeat_alert_edge_triggered_witness :
    ({ coin := "BTC", condition := "above", indicator := "ema", period := 200,
       timeframe := "4h", srFilter := none, useTrend := false,
       frequency := "repeat", enabled := true, lastTriggered := none,
       lastState := none, lastStateChangedAt := none,
       lastCheckedAt := none : Alert }).frequency = "repeat" ∧
    runEvalCycles
      { coin := "BTC", condition := "above", indicator := "ema", period := 200,
        timeframe := "4h", srFilter := none, useTrend := false,
        frequency := "repeat", enabled := true, lastTriggered := none,
        lastState := none, lastStateChangedAt := none, lastCheckedAt := none }
      [{ price := 101, indicatorValue := 100, aboveIndicator := true,
         belowIndicator := false, atIndicator := false, diffPercent := 1/100,
         supportResistance := none, timeframe := "4h" },
       { price := 101, indicatorValue := 100, aboveIndicator := true,
         belowIndicator := false, atIndicator := false, diffPercent := 1/100,
         supportResistance := none, timeframe := "4h" },
       { price := 101, indicatorValue := 100, aboveIndicator := true,
         belowIndicator := false, atIndicator := false, diffPercent := 1/100,
         supportResistance := none, timeframe := "4h" }] 0
      = true :: List.replicate 2 false :=
  ⟨rfl,
    (repeat_alert_edge_triggered
      { coin := "BTC", condition := "above", indicator := "ema", period := 200,
        timeframe := "4h", srFilter := none, useTrend := false,
        frequency := "repeat", enabled := true, lastTriggered := none,
        lastState := none, lastStateChangedAt := none, lastCheckedAt := none }
      rfl (by decide)).2.2
      { price := 101, indicatorValue := 100, aboveIndicator := true,
        belowIndicator := false, atIndicator := false, diffPercent := 1/100,
        supportResistance := none, timeframe := "4h" }
      [{ price := 101, indicatorValue := 100, aboveIndicator := true,
         belowIndicator := false, atIndicator := false, diffPercent := 1/100,
         supportResistance := none, timeframe := "4h" },
       { price := 101, indicatorValue := 100, aboveIndicator := true,
         belowIndicator := false, atIndicator := false, diffPercent := 1/100,
         supportResistance := none, timeframe := "4h" }] 0
      rfl rfl rfl (by intro r hr; fin_cases hr <;> rfl)⟩

/-! ## C7 -/

/-- C7: For every input text, the parser's output is in exactly one of two
mutually exclusive modes: either a positional-relationship query (the
independent-conditions path skipped entirely: no combinator, no conditions),
or an independent-conditions query with a combinator and no positional
relationship. -/
theorem query_modes_mutually_exclusive (query : String) :
    ((parseComplexQuery query).positioning.isSome = true ∧
     (parseComplexQuery query).logic = none ∧
     (parseComplexQuery query).conditions = []) ∨
    ((parseComplexQuery query).positioning = none ∧
     (parseComplexQuery query).logic ≠ none) := by
  unfold parseComplexQuery
  cases h : parseIndicatorPositioning query with
  | some p => left; simp
  | none =>
      right
      dsimp only
      split <;> simp

/-! ## C2 -/

/-- C2 counterexample: a query containing both symbols parses as an Order
relationship with direction descending, not ascending. -/
theorem order_tiebreak_counterexample :
    containsChar '<' "ma100 < ema200 > ma300" = true ∧
    containsChar '>' "ma100 < ema200 > ma300" = true ∧
    parseIndicatorPositioning "ma100 < ema200 > ma300"
      = some (.order
          [⟨"1d", "ma", 100⟩, ⟨"1d", "ema", 200⟩, ⟨"1d", "ma", 300⟩]
          "descending" false none) :=
  ⟨rfl, rfl, by decide⟩

/-- C2 (amended): whenever the interpreter produces an Order relationship, its
direction is descending iff the word "descending" or the symbol `>` occurs in
the text, regardless of `<` — so descending wins the tie-break when both
symbols appear, and ascending results only otherwise. -/
theorem order_direction_tiebreak (query : String) (inds : List IndicatorSpec)
    (ot : String) (ip : Bool) (pp : Option Nat)
    (h : parseIndicatorPositioning query = some (.order inds ot ip pp)) :
    ot = if containsWord "descending" (lowerStr query) || containsChar '>' (lowerStr query)
      then "descending" else "ascending" := by
  unfold parseIndicatorPositioning at h
  cases hdet : detectIndicatorPositioning query with
  | none => rw [hdet] at h; simp at h
  | some pt =>
      rw [hdet] at h
      dsimp only at h
      by_cases hb : pt = "between"
      · rw [if_pos hb] at h
        split at h
        · split at h <;> simp at h
        · split at h
          · split at h <;> simp at h
          · simp at h
      · rw [if_neg hb] at h
        by_cases ho : pt = "order"
        · rw [if_pos ho] at h
          split at h
          · rw [Option.some_inj] at h
            have := (Positioning.order.injEq _ _ _ _ _ _ _ _).mp h.symm
            exact this.2.1
          · simp at h
        · rw [if_neg ho] at h
          by_cases hc : pt = "comparison"
          · rw [if_pos hc] at h
            split at h <;> simp at h
          · rw [if_neg hc] at h
            simp at h

/-- Witness for the amended C2 theorem at the counterexample query. -/
theorem order_direction_tiebreak_witness :
    parseIndicatorPositioning "ma100 < ema200 > ma300"
      = some (.order
          [⟨"1d", "ma", 100⟩, ⟨"1d", "ema", 200⟩, ⟨"1d", "ma", 300⟩]
          "descending" false none) ∧
    ("descending" : String)
      = if containsWord "descending" (lowerStr "ma100 < ema200 > ma300")
            || containsChar '>' (lowerStr "ma100 < ema200 > ma300")
        then "descending" else "ascending" :=
  ⟨by decide,
    order_direction_tiebreak "ma100 < ema200 > ma300"
      [⟨"1d", "ma", 100⟩, ⟨"1d", "ema", 200⟩, ⟨"1d", "ma", 300⟩]
      "descending" false none (by decide)⟩

/-! ## C8 -/

/-- Snapshot entry recorded under the 1d MA100 key in the concrete maps
below: live price 5, indicator value 1. -/
def entry1dMa100 : SnapshotResult :=
  { price := 5, indicatorValue := 1, aboveIndicator := true,
    belowIndicator := false, atIndicator := false, diffPercent := 4,
    supportResistance := none, timeframe := "1d" }

/-- Snapshot entry recorded under the 4h EMA200 key with a different live
price (100), as the per-timeframe closed candles genuinely differ. -/
def entry4hEma200Far : SnapshotResult :=
  { price := 100, indicatorValue := 10, aboveIndicator := true,
    belowIndicator := false, atIndicator := false, diffPercent := 9,
    supportResistance := none, timeframe := "4h" }

/-- Snapshot entry recorded under the 4h EMA200 key with the same live price
as the 1d entry. -/
def entry4hEma200Same : SnapshotResult :=
  { price := 5, indicatorValue := 10, aboveIndicator := false,
    belowIndicator := true, atIndicator := false, diffPercent := 1,
    supportResistance := none, timeframe := "4h" }

/-- Snapshot map whose two entries record different live prices. -/
def snapshotMapFar : SnapshotMap :=
  [("1d_ma100", entry1dMa100), ("4h_ema200", entry4hEma200Far)]

/-- Snapshot map whose two entries record the same live price. -/
def snapshotMapSame : SnapshotMap :=
  [("1d_ma100", entry1dMa100), ("4h_ema200", entry4hEma200Same)]

/-- C8 counterexample: the PriceBetween test reads the live price from the
lower bound's snapshot entry, so a snapshot whose two entries record
different prices (as happens across timeframes) is not invariant under
swapping the lower and upper indicator specs. -/
theorem price_between_swap_counterexample :
    positioningMatches snapshotMapFar
        (.priceBetween ⟨"1d", "ma", 100⟩ ⟨"4h", "ema", 200⟩) = true ∧
    positioningMatches snapshotMapFar
        (.priceBetween ⟨"4h", "ema", 200⟩ ⟨"1d", "ma", 100⟩) = false := by
  constructor <;> decide

/-- C8 (amended): the Between match test holds iff the target value lies in
the inclusive interval from the smaller to the larger bound value, and the
Between test is invariant under swapping the lower and upper specs; the
PriceBetween test is the same inclusive-range test using the live price read
from the lower bound's entry, and is invariant under swapping the bounds
whenever both entries record the same live price. -/
theorem between_inclusive_minmax (results : SnapshotMap) (t l u : IndicatorSpec)
    (tr lr ur : SnapshotResult)
    (ht : lookupResult results (keyOf t) = some tr)
    (hl : lookupResult results (keyOf l) = some lr)
    (hu : lookupResult results (keyOf u) = some ur) :
    (positioningMatches results (.between t l u) = true ↔
      min lr.indicatorValue ur.indicatorValue ≤ tr.indicatorValue ∧
        tr.indicatorValue ≤ max lr.indicatorValue ur.indicatorValue) ∧
    (positioningMatches results (.priceBetween l u) = true ↔
      min lr.indicatorValue ur.indicatorValue ≤ lr.price ∧
        lr.price ≤ max lr.indicatorValue ur.indicatorValue) ∧
    positioningMatches results (.between t l u)
      = positioningMatches results (.between t u l) ∧
    (lr.price = ur.price →
      positioningMatches results (.priceBetween l u)
        = positioningMatches results (.priceBetween u l)) := by
  refine ⟨?_, ?_, ?_, ?_⟩
  · simp [positioningMatches, ht, hl, hu]
  · simp [positioningMatches, hl, hu]
  · simp [positioningMatches, ht, hl, hu, min_comm, max_comm]
  · intro heq
    simp [positioningMatches, hl, hu, heq, min_comm, max_comm]

/-- Witness for the amended C8 theorem on a concrete snapshot map. -/
theorem between_inclusive_minmax_witness :
    lookupResult snapshotMapSame (keyOf ⟨"1d", "ma", 100⟩) = some entry1dMa100 ∧
    (positioningMatches snapshotMapSame
        (.priceBetween ⟨"1d", "ma", 100⟩ ⟨"4h", "ema", 200⟩) = true ↔
      min entry1dMa100.indicatorValue entry4hEma200Same.indicatorValue
          ≤ entry1dMa100.price ∧
        entry1dMa100.price
          ≤ max entry1dMa100.indicatorValue entry4hEma200Same.indicatorValue) :=
  ⟨by decide,
    (between_inclusive_minmax snapshotMapSame
      ⟨"1d", "ma", 100⟩ ⟨"1d", "ma", 100⟩ ⟨"4h", "ema", 200⟩
      entry1dMa100 entry1dMa100 entry4hEma200Same
      (by decide) (by decide) (by decide)).2.1⟩

end CryptoEmaTracker
